import Mathlib

/-!
Shallow embedding of `tonic-side-effect` (src/src/lib.rs).

The library wraps a tonic `Channel` so that each call monitors whether any
HTTP frame was ever produced from the corresponding body.  The shared
`Arc<AtomicBool>` flag is modelled as an index (`Nat`) into a `Store` of
booleans; cloning the `Arc` is sharing the index.  Poll-based futures and
bodies are modelled by step functions that take the inner layer's poll
answer as an explicit event and return the layer's answer together with the
updated store, mirroring the Rust `match` arms one-to-one.
-/

namespace TonicSideEffect

/-- `tonic::Status`: an error status with a message and a metadata map
(`tonic::metadata::MetadataMap`, modelled as an association list). -/
structure Status where
  message : String
  metadata : List (String × String)
deriving DecidableEq, Repr

/-- `Status::from_error` applied to a `tonic::transport::Error` (modelled by
its display string): a status carrying the error's message and an empty
metadata map. -/
def Status.from_error (e : String) : Status :=
  { message := e, metadata := [] }

/-- `MetadataMap::insert`: inserts a key/value pair, replacing any previous
entry for the same key. -/
def insertMeta (m : List (String × String)) (k v : String) : List (String × String) :=
  (k, v) :: m.filter (fun p => p.1 != k)

/-- Whether a metadata map contains an entry for key `k`. -/
def containsKey (m : List (String × String)) (k : String) : Bool :=
  m.any (fun p => p.1 == k)

/-- The heap of `Arc<AtomicBool>` frame signals (`sigs`, indexed by
allocation order) together with a counter used to mint fresh `Channel`
handle identities for clones. -/
structure Store where
  sigs : List Bool
  nextHandle : Nat
deriving DecidableEq, Repr

/-- `AtomicBool::load`: read signal `i` (out-of-range reads default to
`false`; the library only ever uses indices it allocated). -/
def Store.get (s : Store) (i : Nat) : Bool :=
  s.sigs.getD i false

/-- `AtomicBool::store`: write `b` to signal `i`. -/
def Store.set (s : Store) (i : Nat) (b : Bool) : Store :=
  { s with sigs := s.sigs.set i b }

/-- Payload of one `hyper::body::Frame` (`Bytes`). -/
abbrev Bytes := List Nat

/-- Answer of one `Body::poll_frame` call:
`Pending`, `Ready(Some(Ok(frame)))`, `Ready(Some(Err(status)))`, or
`Ready(None)`. -/
inductive FramePoll where
  | pending
  | frame (data : Bytes)
  | error (status : Status)
  | eos
deriving DecidableEq, Repr

/-- `RequestFrameMonitorBody::poll_frame`.  `sig` is the body's
`http_frame_produced` signal, `ev` the inner body's poll answer.  On a
successfully produced frame the signal is stored `true` and the same frame
is yielded; every other answer is passed through with no store write. -/
def RequestFrameMonitorBody.poll_frame (sig : Nat) (store : Store) (ev : FramePoll) :
    FramePoll × Store :=
  match ev with
  | .frame f => (.frame f, store.set sig true)
  | .error s => (.error s, store)
  | .eos => (.eos, store)
  | .pending => (.pending, store)

/-- `RequestFrameMonitorBody::is_end_stream`: pure passthrough of the inner
body's answer. -/
def RequestFrameMonitorBody.is_end_stream (innerAnswer : Bool) : Bool :=
  innerAnswer

/-- `hyper::body::SizeHint`. -/
structure SizeHint where
  lower : Nat
  upper : Option Nat
deriving DecidableEq, Repr

/-- `RequestFrameMonitorBody::size_hint`: pure passthrough of the inner
body's answer. -/
def RequestFrameMonitorBody.size_hint (innerAnswer : SizeHint) : SizeHint :=
  innerAnswer

/-- Drive a `RequestFrameMonitorBody` through a sequence of inner poll
answers, returning the final store and the sequence of answers the body
yielded to its consumer, in order. -/
def driveBody (sig : Nat) (store : Store) : List FramePoll → Store × List FramePoll
  | [] => (store, [])
  | ev :: evs =>
    let step := RequestFrameMonitorBody.poll_frame sig store ev
    let rest := driveBody sig step.2 evs
    (rest.1, step.1 :: rest.2)

/-- A `BoxBody` value: either an opaque underlying body or a
`RequestFrameMonitorBody` wrapping an inner body, bound to signal `sig`. -/
inductive BoxBody where
  | base (id : Nat)
  | monitored (inner : BoxBody) (sig : Nat)
deriving DecidableEq, Repr

/-- Whether a `BoxBody` is a `RequestFrameMonitorBody` wrapper. -/
def BoxBody.isMonitoredWrapper : BoxBody → Bool
  | .monitored _ _ => true
  | .base _ => false

/-- `http::Request<BoxBody>`: head (the request parts) and body. -/
structure HttpRequest where
  head : Nat
  body : BoxBody
deriving DecidableEq, Repr

/-- `http::Response<BoxBody>`: head (the response parts) and body. -/
structure HttpResponse where
  head : Nat
  body : BoxBody
deriving DecidableEq, Repr

/-- A `tonic::transport::Channel` handle: `endpoint` identifies the shared
underlying connection, `handle` the individual clone. -/
structure Channel where
  endpoint : Nat
  handle : Nat
deriving DecidableEq, Repr

/-- `Channel::clone`: a new handle (identity `freshHandle`) to the same
underlying connection. -/
def Channel.clone (c : Channel) (freshHandle : Nat) : Channel :=
  { endpoint := c.endpoint, handle := freshHandle }

/-- `RequestFrameMonitorFuture`: records the channel the call was issued on,
the (wrapped) request passed to `Channel::call`, the shared
`http_frame_produced` signal, and the `no_frames_tag` header key. -/
structure RequestFrameMonitorFuture where
  innerChannel : Channel
  innerRequest : HttpRequest
  http_frame_produced : Nat
  no_frames_tag : String
deriving DecidableEq, Repr

/-- Answer of polling the wrapped tonic `ResponseFuture`:
`Pending`, `Ready(Ok(response))`, or `Ready(Err(transport error))`. -/
inductive ChannelPoll where
  | pending
  | ok (r : HttpResponse)
  | err (e : String)
deriving DecidableEq, Repr

/-- Answer of polling a `RequestFrameMonitorFuture`. -/
inductive FuturePoll where
  | pending
  | ok (r : HttpResponse)
  | err (s : Status)
deriving DecidableEq, Repr

/-- Metadata of the error status of a future poll answer (empty when the
answer is not an error). -/
def FuturePoll.errMetadata : FuturePoll → List (String × String)
  | .err s => s.metadata
  | _ => []

/-- `RequestFrameMonitorFuture::poll`.  `innerPoll` is the wrapped tonic
future's poll answer.  `Ok` responses are returned as-is; on `Err` the error
is converted by `Status::from_error` and, exactly when the
`http_frame_produced` signal reads `false`, the `no_frames_tag` key is
inserted into the status metadata. -/
def RequestFrameMonitorFuture.poll (fut : RequestFrameMonitorFuture) (store : Store)
    (innerPoll : ChannelPoll) : FuturePoll × Store :=
  match innerPoll with
  | .ok r => (.ok r, store)
  | .err e =>
    let status := Status.from_error e
    if store.get fut.http_frame_produced = false then
      (.err { status with metadata := insertMeta status.metadata fut.no_frames_tag "" }, store)
    else
      (.err status, store)
  | .pending => (.pending, store)

/-- `RequestFrameMonitor`: the wrapped `Channel` and the header key to
inject into an error `Status` when no frames were produced. -/
structure RequestFrameMonitor where
  inner : Channel
  no_frames_tag : String
deriving DecidableEq, Repr

/-- `RequestFrameMonitor::new`. -/
def RequestFrameMonitor.new (inner : Channel) (no_frames_tag : String) : RequestFrameMonitor :=
  { inner := inner, no_frames_tag := no_frames_tag }

/-- Answer of the wrapped channel's `poll_ready`. -/
inductive ChannelReady where
  | pending
  | ok
  | err (e : String)
deriving DecidableEq, Repr

/-- Answer of `RequestFrameMonitor::poll_ready`. -/
inductive ServiceReady where
  | pending
  | ok
  | err (s : Status)
deriving DecidableEq, Repr

/-- `RequestFrameMonitor::poll_ready`: forwards the inner channel's
readiness answer, mapping a readiness error through `Status::from_error`. -/
def RequestFrameMonitor.poll_ready (svc : RequestFrameMonitor) (innerAnswer : ChannelReady) :
    ServiceReady :=
  match innerAnswer with
  | .pending => .pending
  | .ok => .ok
  | .err e => .err (Status.from_error e)

/-- Result of `RequestFrameMonitor::call`: the returned future, the service
as left after the call (its `inner` slot mutated by the clone-and-swap), and
the updated store. -/
structure CallOutcome where
  future : RequestFrameMonitorFuture
  service : RequestFrameMonitor
  store : Store
deriving DecidableEq, Repr

/-- `RequestFrameMonitor::call`: split the request into parts; allocate a
fresh `http_frame_produced` signal (a new `Arc<AtomicBool>` holding
`false`); wrap the request body in a `RequestFrameMonitorBody` bound to that
signal; clone the inner channel, swap the clone into `self.inner`
(`std::mem::replace`), and issue the call on the previously resident handle;
return a `RequestFrameMonitorFuture` bound to the same signal. -/
def RequestFrameMonitor.call (svc : RequestFrameMonitor) (store : Store) (req : HttpRequest) :
    CallOutcome :=
  let head := req.head
  let body := req.body
  let sig := store.sigs.length
  let monitoredBody := BoxBody.monitored body sig
  let clone := svc.inner.clone store.nextHandle
  let inner := svc.inner
  { future :=
      { innerChannel := inner
        innerRequest := { head := head, body := monitoredBody }
        http_frame_produced := sig
        no_frames_tag := svc.no_frames_tag }
    service := { inner := clone, no_frames_tag := svc.no_frames_tag }
    store := { sigs := store.sigs ++ [false], nextHandle := store.nextHandle + 1 } }

/-! ### Store lemmas -/

/-- Writing `b` at an in-range index makes that index read `b`. -/
theorem listGetDSetSelf (l : List Bool) (i : Nat) (b : Bool) (h : i < l.length) :
    (l.set i b).getD i false = b := by
  induction l generalizing i with
  | nil => simp at h
  | cons a t ih =>
    cases i with
    | zero => simp [List.set, List.getD]
    | succ k =>
      simp only [List.set, List.getD, List.getElem?_cons_succ]
      exact ih k (Nat.lt_of_succ_lt_succ h)

/-- Writing `true` anywhere preserves an index already reading `true`. -/
theorem listGetDSetTrue (l : List Bool) (i j : Nat) (h : l.getD i false = true) :
    (l.set j true).getD i false = true := by
  induction l generalizing i j with
  | nil => simp [List.getD] at h
  | cons a t ih =>
    cases j with
    | zero =>
      cases i with
      | zero => simp [List.set, List.getD]
      | succ k => simpa [List.set, List.getD] using h
    | succ m =>
      cases i with
      | zero => simpa [List.set, List.getD] using h
      | succ k =>
        simp only [List.set, List.getD, List.getElem?_cons_succ] at h ⊢
        exact ih k m h

/-- Writing at index `i` does not change the read at a different index `j`. -/
theorem listGetDSetNe (l : List Bool) (i j : Nat) (b : Bool) (h : i ≠ j) :
    (l.set i b).getD j false = l.getD j false := by
  induction l generalizing i j with
  | nil => simp [List.set]
  | cons a t ih =>
    cases i with
    | zero =>
      cases j with
      | zero => exact absurd rfl h
      | succ k => simp [List.set, List.getD]
    | succ m =>
      cases j with
      | zero => simp [List.set, List.getD]
      | succ k =>
        simp only [List.set, List.getD, List.getElem?_cons_succ]
        exact ih m k (fun he => h (by rw [he]))

/-- Appending a `false` cell changes no read (reads past the end default to
`false`). -/
theorem listGetDAppendFalse (l : List Bool) (i : Nat) :
    (l ++ [false]).getD i false = l.getD i false := by
  induction l generalizing i with
  | nil =>
    cases i with
    | zero => simp [List.getD]
    | succ k => simp [List.getD]
  | cons a t ih =>
    cases i with
    | zero => simp [List.getD]
    | succ k =>
      simp only [List.cons_append, List.getD, List.getElem?_cons_succ]
      exact ih k

/-- Reading at or past the end of the signal list yields `false`. -/
theorem listGetDOutOfRange (l : List Bool) (i : Nat) (h : l.length ≤ i) :
    l.getD i false = false := by
  induction l generalizing i with
  | nil => simp [List.getD]
  | cons a t ih =>
    cases i with
    | zero => simp at h
    | succ k =>
      simp only [List.getD, List.getElem?_cons_succ]
      exact ih k (Nat.le_of_succ_le_succ h)

/-! ### Passthrough and monotonicity lemmas -/

/-- A `RequestFrameMonitorBody` poll yields exactly the inner body's answer. -/
theorem poll_frame_fst (sig : Nat) (store : Store) (ev : FramePoll) :
    (RequestFrameMonitorBody.poll_frame sig store ev).1 = ev := by
  cases ev <;> rfl

/-- One `RequestFrameMonitorBody` poll step never turns a `true` signal
`false`, whatever signal the step writes. -/
theorem poll_frame_preserves_true (sig sig' : Nat) (store : Store) (ev : FramePoll)
    (h : store.get sig = true) :
    ((RequestFrameMonitorBody.poll_frame sig' store ev).2).get sig = true := by
  cases ev with
  | frame f =>
    simp only [RequestFrameMonitorBody.poll_frame, Store.set, Store.get] at h ⊢
    exact listGetDSetTrue store.sigs sig sig' h
  | error s => exact h
  | eos => exact h
  | pending => exact h

/-- Driving a `RequestFrameMonitorBody` through any sequence of inner
answers never turns a `true` signal `false`. -/
theorem driveBody_preserves_true (sig' : Nat) (evs : List FramePoll) :
    ∀ (store : Store) (sig : Nat), store.get sig = true →
      ((driveBody sig' store evs).1).get sig = true := by
  induction evs with
  | nil => intro store sig h; exact h
  | cons ev rest ih =>
    intro store sig h
    exact ih _ sig (poll_frame_preserves_true sig sig' store ev h)

/-- The answer sequence a driven `RequestFrameMonitorBody` yields is exactly
the sequence of inner answers. -/
theorem driveBody_outputs (sig : Nat) (evs : List FramePoll) :
    ∀ store : Store, (driveBody sig store evs).2 = evs := by
  induction evs with
  | nil => intro store; rfl
  | cons ev rest ih =>
    intro store
    simp only [driveBody, poll_frame_fst, List.cons.injEq, true_and]
    exact ih _

/-! ### Claim theorems -/

/-- Claim C1, counterexample: the claim states that the body of the
*response* returned by the Monitored Service is a Monitored Body wrapping
the original response body.  At this concrete call, the service instead
passes the underlying dispatcher a request whose body is the monitored
wrapper, and the future returns an `Ok` response completely unchanged: its
body is the bare inner body, not a monitored wrapper of anything. -/
theorem call_wraps_request_not_response_cex :
    (((RequestFrameMonitor.new ⟨0, 0⟩ "no-frames").call ⟨[], 0⟩
        ⟨7, BoxBody.base 1⟩).future.innerRequest.body
      = BoxBody.monitored (BoxBody.base 1) 0)
    ∧ ((((RequestFrameMonitor.new ⟨0, 0⟩ "no-frames").call ⟨[], 0⟩
          ⟨7, BoxBody.base 1⟩).future.poll
          ((RequestFrameMonitor.new ⟨0, 0⟩ "no-frames").call ⟨[], 0⟩
            ⟨7, BoxBody.base 1⟩).store
          (ChannelPoll.ok ⟨5, BoxBody.base 2⟩)).1
        = FuturePoll.ok ⟨5, BoxBody.base 2⟩)
    ∧ (((HttpResponse.mk 5 (BoxBody.base 2)).body).isMonitoredWrapper = false)
    ∧ ((((RequestFrameMonitor.new ⟨0, 0⟩ "no-frames").call ⟨[], 0⟩
          ⟨7, BoxBody.base 1⟩).future.innerRequest.body).isMonitoredWrapper = true) :=
  ⟨rfl, rfl, rfl, rfl⟩

/-- Claim C1, amended: for every call made through the Monitored Service,
the service delegates to the underlying dispatcher, passing it a request
whose body is a Monitored Body wrapping the original *request* body bound to
the call's Frame Signal, so every request frame successfully produced flips
the Frame Signal; `Ok` responses are returned as produced. -/
theorem call_delegates_with_monitored_request_body (svc : RequestFrameMonitor) (store : Store)
    (req : HttpRequest) :
    ((svc.call store req).future.innerChannel = svc.inner)
    ∧ ((svc.call store req).future.innerRequest.head = req.head)
    ∧ ((svc.call store req).future.innerRequest.body
        = BoxBody.monitored req.body (svc.call store req).future.http_frame_produced)
    ∧ (∀ (st : Store) (f : Bytes),
        RequestFrameMonitorBody.poll_frame (svc.call store req).future.http_frame_produced st
            (FramePoll.frame f)
          = (FramePoll.frame f, st.set (svc.call store req).future.http_frame_produced true))
    ∧ (∀ (st : Store) (r : HttpResponse),
        ((svc.call store req).future.poll st (ChannelPoll.ok r)).1 = FuturePoll.ok r) :=
  ⟨rfl, rfl, rfl, fun _ _ => rfl, fun _ _ => rfl⟩

/-- Claim C2: when the Monitored Service's future resolves with an error,
the propagated `Status` carries the `no_frames_tag` key in its metadata if
and only if the call's Frame Signal reads `false`; when the signal reads
`true`, the error is propagated as `Status::from_error` yields it, with no
marker. -/
theorem error_marker_iff_no_frame (fut : RequestFrameMonitorFuture) (store : Store)
    (e : String) :
    (containsKey ((fut.poll store (ChannelPoll.err e)).1.errMetadata) fut.no_frames_tag
      = !(store.get fut.http_frame_produced))
    ∧ (store.get fut.http_frame_produced = true →
        (fut.poll store (ChannelPoll.err e)).1 = FuturePoll.err (Status.from_error e))
    ∧ (store.get fut.http_frame_produced = false →
        (fut.poll store (ChannelPoll.err e)).1
          = FuturePoll.err (Status.mk e [(fut.no_frames_tag, "")])) := by
  refine ⟨?_, ?_, ?_⟩
  · cases hflag : store.get fut.http_frame_produced with
    | false =>
      simp [RequestFrameMonitorFuture.poll, hflag, FuturePoll.errMetadata, insertMeta,
        Status.from_error, containsKey]
    | true =>
      simp [RequestFrameMonitorFuture.poll, hflag, FuturePoll.errMetadata,
        Status.from_error, containsKey]
  · intro hflag
    simp [RequestFrameMonitorFuture.poll, hflag]
  · intro hflag
    simp [RequestFrameMonitorFuture.poll, hflag, Status.from_error, insertMeta]

/-- Witness for `error_marker_iff_no_frame` at concrete inputs: one call
whose signal reads `true` (no marker) and one whose signal reads `false`
(marker inserted). -/
theorem error_marker_iff_no_frame_witness :
    (containsKey
        ((RequestFrameMonitorFuture.poll ⟨⟨0, 0⟩, ⟨7, BoxBody.base 1⟩, 0, "tag"⟩
            (Store.mk [false] 0) (ChannelPoll.err "boom")).1.errMetadata) "tag"
      = !(Store.get (Store.mk [false] 0) 0))
    ∧ ((RequestFrameMonitorFuture.poll ⟨⟨0, 0⟩, ⟨7, BoxBody.base 1⟩, 0, "tag"⟩
          (Store.mk [true] 0) (ChannelPoll.err "boom")).1
        = FuturePoll.err (Status.from_error "boom"))
    ∧ ((RequestFrameMonitorFuture.poll ⟨⟨0, 0⟩, ⟨7, BoxBody.base 1⟩, 0, "tag"⟩
          (Store.mk [false] 0) (ChannelPoll.err "boom")).1
        = FuturePoll.err (Status.mk "boom" [("tag", "")])) :=
  ⟨(error_marker_iff_no_frame ⟨⟨0, 0⟩, ⟨7, BoxBody.base 1⟩, 0, "tag"⟩
      (Store.mk [false] 0) "boom").1,
   (error_marker_iff_no_frame ⟨⟨0, 0⟩, ⟨7, BoxBody.base 1⟩, 0, "tag"⟩
      (Store.mk [true] 0) "boom").2.1 rfl,
   (error_marker_iff_no_frame ⟨⟨0, 0⟩, ⟨7, BoxBody.base 1⟩, 0, "tag"⟩
      (Store.mk [false] 0) "boom").2.2 rfl⟩

/-- Claim C3: when the inner body yields a successfully produced frame, the
Monitored Body's poll stores `true` into the Frame Signal and yields exactly
that same frame; with the signal in range, the signal then reads `true`. -/
theorem poll_frame_signals_and_yields (sig : Nat) (store : Store) (f : Bytes) :
    (RequestFrameMonitorBody.poll_frame sig store (FramePoll.frame f)
      = (FramePoll.frame f, store.set sig true))
    ∧ (sig < store.sigs.length →
        ((RequestFrameMonitorBody.poll_frame sig store (FramePoll.frame f)).2).get sig
          = true) := by
  refine ⟨rfl, fun h => ?_⟩
  simp only [RequestFrameMonitorBody.poll_frame, Store.set, Store.get]
  exact listGetDSetSelf store.sigs sig true h

/-- Witness for `poll_frame_signals_and_yields` at a concrete in-range
signal. -/
theorem poll_frame_signals_and_yields_witness :
    (RequestFrameMonitorBody.poll_frame 0 (Store.mk [false] 0) (FramePoll.frame [1])
      = (FramePoll.frame [1], Store.set (Store.mk [false] 0) 0 true))
    ∧ (((RequestFrameMonitorBody.poll_frame 0 (Store.mk [false] 0)
          (FramePoll.frame [1])).2).get 0 = true) :=
  ⟨(poll_frame_signals_and_yields 0 (Store.mk [false] 0) [1]).1,
   (poll_frame_signals_and_yields 0 (Store.mk [false] 0) [1]).2 (by decide)⟩

/-- Claim C4: driving the Monitored Body through any sequence of
successfully produced frames followed by stream exhaustion leaves the Frame
Signal reading `true` if and only if the sequence contained at least one
frame; and for the concrete sequence [frame ok, frame ok, stream error] it
reads `true`. -/
theorem signal_iff_frames_nonempty (sig : Nat) (store : Store) (frames : List Bytes)
    (h1 : sig < store.sigs.length) (h2 : store.get sig = false) :
    (((driveBody sig store (frames.map FramePoll.frame ++ [FramePoll.eos])).1).get sig
      = !frames.isEmpty)
    ∧ (((driveBody 0 (Store.mk [false] 0)
          [FramePoll.frame [1], FramePoll.frame [2],
            FramePoll.error (Status.mk "boom" [])]).1).get 0 = true) := by
  refine ⟨?_, by rfl⟩
  cases frames with
  | nil =>
    simpa [driveBody, RequestFrameMonitorBody.poll_frame] using h2
  | cons f fs =>
    simp only [List.map, List.cons_append, driveBody, RequestFrameMonitorBody.poll_frame,
      List.isEmpty_cons, Bool.not_false]
    exact driveBody_preserves_true sig (fs.map FramePoll.frame ++ [FramePoll.eos])
      (store.set sig true) sig (listGetDSetSelf store.sigs sig true h1)

/-- Witness for `signal_iff_frames_nonempty` at a concrete in-range signal
starting `false`, with two frames then exhaustion. -/
theorem signal_iff_frames_nonempty_witness :
    (((driveBody 0 (Store.mk [false] 0)
          ([[1], [2]].map FramePoll.frame ++ [FramePoll.eos])).1).get 0
      = !([[1], [2]] : List Bytes).isEmpty)
    ∧ (((driveBody 0 (Store.mk [false] 0)
          [FramePoll.frame [1], FramePoll.frame [2],
            FramePoll.error (Status.mk "boom" [])]).1).get 0 = true) :=
  signal_iff_frames_nonempty 0 (Store.mk [false] 0) [[1], [2]] (by decide) (by decide)

/-- Claim C5: the Monitored Body is a lossless passthrough: a stream error,
end-of-stream, and pending are forwarded with no store write, a frame is
forwarded unchanged, the end-of-stream and size-hint queries return the
inner body's answers, and driving the body through any answer sequence
yields exactly that sequence in order. -/
theorem body_lossless_passthrough (sig : Nat) (store : Store) (s : Status) (f : Bytes)
    (b : Bool) (hint : SizeHint) (evs : List FramePoll) :
    (RequestFrameMonitorBody.poll_frame sig store (FramePoll.error s)
      = (FramePoll.error s, store))
    ∧ (RequestFrameMonitorBody.poll_frame sig store FramePoll.eos = (FramePoll.eos, store))
    ∧ (RequestFrameMonitorBody.poll_frame sig store FramePoll.pending
        = (FramePoll.pending, store))
    ∧ ((RequestFrameMonitorBody.poll_frame sig store (FramePoll.frame f)).1
        = FramePoll.frame f)
    ∧ (RequestFrameMonitorBody.is_end_stream b = b)
    ∧ (RequestFrameMonitorBody.size_hint hint = hint)
    ∧ ((driveBody sig store evs).2 = evs) :=
  ⟨rfl, rfl, rfl, rfl, rfl, rfl, driveBody_outputs sig evs store⟩

/-- Claim C6: when the wrapped future resolves `Ok`, the Monitored Service's
future returns the response exactly as produced, with no store write, and
the answer does not depend on the store at all (the Frame Signal is not
consulted on the success path). -/
theorem future_ok_passthrough (fut : RequestFrameMonitorFuture) (store store' : Store)
    (r : HttpResponse) :
    (fut.poll store (ChannelPoll.ok r) = (FuturePoll.ok r, store))
    ∧ ((fut.poll store (ChannelPoll.ok r)).1 = (fut.poll store' (ChannelPoll.ok r)).1) :=
  ⟨rfl, rfl⟩

/-- Claim C7: each call allocates a fresh Frame Signal reading `false` and
binds exactly one Monitored Body and the returned future to it; a second
call through the resulting service gets a distinct signal, and writing
either call's signal leaves the other call's signal reading unchanged. -/
theorem call_fresh_signal_per_call (svc : RequestFrameMonitor) (store : Store)
    (req req2 : HttpRequest) :
    ((svc.call store req).store.get (svc.call store req).future.http_frame_produced = false)
    ∧ ((svc.call store req).future.innerRequest.body
        = BoxBody.monitored req.body (svc.call store req).future.http_frame_produced)
    ∧ ((((svc.call store req).service.call (svc.call store req).store req2).future.http_frame_produced
          == (svc.call store req).future.http_frame_produced) = false)
    ∧ (∀ c : Bool,
        ((((svc.call store req).service.call (svc.call store req).store req2).store.set
            (svc.call store req).future.http_frame_produced c).get
          ((svc.call store req).service.call (svc.call store req).store req2).future.http_frame_produced
        = (((svc.call store req).service.call (svc.call store req).store req2).store.get
            ((svc.call store req).service.call (svc.call store req).store req2).future.http_frame_produced)))
    ∧ (∀ c : Bool,
        ((((svc.call store req).service.call (svc.call store req).store req2).store.set
            ((svc.call store req).service.call (svc.call store req).store req2).future.http_frame_produced c).get
          (svc.call store req).future.http_frame_produced
        = (((svc.call store req).service.call (svc.call store req).store req2).store.get
            (svc.call store req).future.http_frame_produced))) := by
  refine ⟨?_, rfl, ?_, ?_, ?_⟩
  · show (store.sigs ++ [false]).getD store.sigs.length false = false
    rw [listGetDAppendFalse]
    exact listGetDOutOfRange store.sigs store.sigs.length (Nat.le_refl _)
  · show ((store.sigs ++ [false]).length == store.sigs.length) = false
    simp only [List.length_append, List.length_cons, List.length_nil, beq_eq_false_iff_ne,
      ne_eq]
    omega
  · intro c
    show ((store.sigs ++ [false] ++ [false]).set store.sigs.length c).getD
        (store.sigs ++ [false]).length false
      = (store.sigs ++ [false] ++ [false]).getD (store.sigs ++ [false]).length false
    apply listGetDSetNe
    simp
  · intro c
    show ((store.sigs ++ [false] ++ [false]).set (store.sigs ++ [false]).length c).getD
        store.sigs.length false
      = (store.sigs ++ [false] ++ [false]).getD store.sigs.length false
    apply listGetDSetNe
    simp

/-- Claim C8: each call clones the persistent inner channel, installs the
clone (same endpoint, fresh handle identity) into the service's slot, and
issues the actual call on the previously resident handle. -/
theorem call_clone_and_swap (svc : RequestFrameMonitor) (store : Store) (req : HttpRequest) :
    ((svc.call store req).service.inner = svc.inner.clone store.nextHandle)
    ∧ ((svc.call store req).service.inner.endpoint = svc.inner.endpoint)
    ∧ ((svc.call store req).future.innerChannel = svc.inner)
    ∧ ((svc.call store req).store.nextHandle = store.nextHandle + 1)
    ∧ ((svc.call store req).service.no_frames_tag = svc.no_frames_tag) :=
  ⟨rfl, rfl, rfl, rfl, rfl⟩

/-- Claim C9: the Monitored Service's readiness query forwards the wrapped
channel's answer: pending stays pending, ready-ok stays ready-ok, and a
readiness error is surfaced as `Status::from_error` of that error — the
message is preserved and no metadata (in particular no no-frames marker) is
added. -/
theorem poll_ready_passthrough (svc : RequestFrameMonitor) (e : String) :
    (svc.poll_ready ChannelReady.pending = ServiceReady.pending)
    ∧ (svc.poll_ready ChannelReady.ok = ServiceReady.ok)
    ∧ (svc.poll_ready (ChannelReady.err e) = ServiceReady.err (Status.from_error e))
    ∧ ((Status.from_error e).message = e)
    ∧ ((Status.from_error e).metadata = [])
    ∧ (containsKey (Status.from_error e).metadata svc.no_frames_tag = false) :=
  ⟨rfl, rfl, rfl, rfl, rfl, rfl⟩

/-- Claim C10: the frame-produced flag is monotone: a body poll either
leaves the store unchanged or stores `true` into its own signal (and only on
a frame), the future's poll never writes the store, a call leaves every
existing signal's reading unchanged, and once a signal reads `true` any
body poll step — and any driven sequence of steps — leaves it reading
`true`. -/
theorem flag_monotone (sig sig' i : Nat) (store : Store) (ev : FramePoll)
    (evs : List FramePoll) (fut : RequestFrameMonitorFuture) (ip : ChannelPoll)
    (svc : RequestFrameMonitor) (req : HttpRequest) :
    ((RequestFrameMonitorBody.poll_frame sig store ev).2 = store
      ∨ ∃ f, ev = FramePoll.frame f
          ∧ (RequestFrameMonitorBody.poll_frame sig store ev).2 = store.set sig true)
    ∧ ((fut.poll store ip).2 = store)
    ∧ ((svc.call store req).store.get i = store.get i)
    ∧ (store.get sig = true →
        ((RequestFrameMonitorBody.poll_frame sig' store ev).2).get sig = true)
    ∧ (store.get sig = true → ((driveBody sig' store evs).1).get sig = true) := by
  refine ⟨?_, ?_, ?_, poll_frame_preserves_true sig sig' store ev,
    fun h => driveBody_preserves_true sig' evs store sig h⟩
  · cases ev with
    | frame f => exact Or.inr ⟨f, rfl, rfl⟩
    | error s => exact Or.inl rfl
    | eos => exact Or.inl rfl
    | pending => exact Or.inl rfl
  · cases ip with
    | pending => rfl
    | ok r => rfl
    | err e =>
      simp only [RequestFrameMonitorFuture.poll]
      split <;> rfl
  · show (store.sigs ++ [false]).getD i false = store.sigs.getD i false
    exact listGetDAppendFalse store.sigs i

/-- Witness for `flag_monotone` at concrete inputs with the signal already
reading `true`. -/
theorem flag_monotone_witness :
    ((RequestFrameMonitorBody.poll_frame 0 (Store.mk [true] 0) FramePoll.eos).2
        = Store.mk [true] 0
      ∨ ∃ f, FramePoll.eos = FramePoll.frame f
          ∧ (RequestFrameMonitorBody.poll_frame 0 (Store.mk [true] 0) FramePoll.eos).2
            = (Store.mk [true] 0).set 0 true)
    ∧ ((RequestFrameMonitorFuture.poll ⟨⟨0, 0⟩, ⟨7, BoxBody.base 1⟩, 0, "tag"⟩
          (Store.mk [true] 0) ChannelPoll.pending).2 = Store.mk [true] 0)
    ∧ (((RequestFrameMonitor.new ⟨0, 0⟩ "tag").call (Store.mk [true] 0)
          ⟨7, BoxBody.base 1⟩).store.get 0 = (Store.mk [true] 0).get 0)
    ∧ (((RequestFrameMonitorBody.poll_frame 1 (Store.mk [true] 0) FramePoll.eos).2).get 0
        = true)
    ∧ (((driveBody 1 (Store.mk [true] 0) [FramePoll.eos]).1).get 0 = true) :=
  ⟨(flag_monotone 0 1 0 (Store.mk [true] 0) FramePoll.eos [FramePoll.eos]
      ⟨⟨0, 0⟩, ⟨7, BoxBody.base 1⟩, 0, "tag"⟩ ChannelPoll.pending
      (RequestFrameMonitor.new ⟨0, 0⟩ "tag") ⟨7, BoxBody.base 1⟩).1,
   (flag_monotone 0 1 0 (Store.mk [true] 0) FramePoll.eos [FramePoll.eos]
      ⟨⟨0, 0⟩, ⟨7, BoxBody.base 1⟩, 0, "tag"⟩ ChannelPoll.pending
      (RequestFrameMonitor.new ⟨0, 0⟩ "tag") ⟨7, BoxBody.base 1⟩).2.1,
   (flag_monotone 0 1 0 (Store.mk [true] 0) FramePoll.eos [FramePoll.eos]
      ⟨⟨0, 0⟩, ⟨7, BoxBody.base 1⟩, 0, "tag"⟩ ChannelPoll.pending
      (RequestFrameMonitor.new ⟨0, 0⟩ "tag") ⟨7, BoxBody.base 1⟩).2.2.1,
   (flag_monotone 0 1 0 (Store.mk [true] 0) FramePoll.eos [FramePoll.eos]
      ⟨⟨0, 0⟩, ⟨7, BoxBody.base 1⟩, 0, "tag"⟩ ChannelPoll.pending
      (RequestFrameMonitor.new ⟨0, 0⟩ "tag") ⟨7, BoxBody.base 1⟩).2.2.2.1 (by decide),
   (flag_monotone 0 1 0 (Store.mk [true] 0) FramePoll.eos [FramePoll.eos]
      ⟨⟨0, 0⟩, ⟨7, BoxBody.base 1⟩, 0, "tag"⟩ ChannelPoll.pending
      (RequestFrameMonitor.new ⟨0, 0⟩ "tag") ⟨7, BoxBody.base 1⟩).2.2.2.2 (by decide)⟩

end TonicSideEffect
